import Mathlib

/-! Verification of the sumo-tools data-collection core: a shallow embedding of
`src/metrics.py`, `src/visualisation.py` and `src/data_collector.py`.

Modelling conventions:
* Python `dict` (insertion-ordered, unique keys) is an association list
  `List (String × β)`; assignment `m[k] = v` replaces the first binding of `k`
  in place or appends a fresh binding at the end (`dictSet`), exactly the
  insertion-order semantics of CPython dicts.
* Python `set` of vehicle ids is `Finset String`.
* Python floats are idealised as `ℚ`; the `np.NaN` "missing" sentinel of the
  time-distance slot arrays is `Option ℚ` with `none` for NaN.
* Python object references (for the collector's accumulator slots, where
  `==` on these classes defaults to identity comparison) are `Nat` ids.
* A Python operation that can raise is embedded as an `Option`-returning
  function, `none` marking the raise; operations with no raise point are
  total functions.
-/

namespace Sumo

/-! Section: Python dict as an association list -/

/-- Lookup in a Python dict: first binding of the key, if any. -/
def dictLookup {β : Type} (k : String) : List (String × β) → Option β
  | [] => none
  | (k', v) :: rest => if k' = k then some v else dictLookup k rest

/-- Python dict assignment `m[k] = v`: replace the first binding of `k`
in place, or append a new binding at the end. -/
def dictSet {β : Type} (m : List (String × β)) (k : String) (v : β) :
    List (String × β) :=
  match m with
  | [] => [(k, v)]
  | (k', w) :: rest =>
      if k' = k then (k, v) :: rest else (k', w) :: dictSet rest k v

@[simp]
theorem dictLookup_dictSet_self {β : Type} (m : List (String × β)) (k : String)
    (v : β) : dictLookup k (dictSet m k v) = some v := by
  induction m with
  | nil => simp [dictSet, dictLookup]
  | cons p rest ih =>
      obtain ⟨k', w⟩ := p
      by_cases h : k' = k
      · simp [dictSet, dictLookup, h]
      · simp [dictSet, dictLookup, h, ih]

theorem dictLookup_dictSet_ne {β : Type} (m : List (String × β)) {k k' : String}
    (v : β) (h : k' ≠ k) : dictLookup k' (dictSet m k v) = dictLookup k' m := by
  induction m with
  | nil =>
      simp only [dictSet, dictLookup]
      rw [if_neg (Ne.symm h)]
  | cons p rest ih =>
      obtain ⟨k₀, w⟩ := p
      simp only [dictSet]
      by_cases hk : k₀ = k
      · subst hk
        simp only [if_pos rfl, dictLookup]
        rw [if_neg (Ne.symm h), if_neg (Ne.symm h)]
      · simp only [if_neg hk, dictLookup]
        by_cases hk' : k₀ = k'
        · rw [if_pos hk', if_pos hk']
        · rw [if_neg hk', if_neg hk', ih]

/-! Section: Python `str.endswith` -/

/-- Python `s.endswith(t)`. -/
def strEndsWith (s t : String) : Bool := t.data.isSuffixOf s.data

/-! Section: `Throughput` (src/metrics.py, lines 57–96) -/

/-- State of the `Throughput` metric accumulator:
`vehicles_in_edge` maps an edge id to the vehicle-id set seen at the last
update for that edge, `vehicles_left_count` maps an edge id to the ordered
list of departed-counts recorded for it. -/
structure Throughput where
  vehicles_in_edge : List (String × Finset String)
  vehicles_left_count : List (String × List Nat)
  edge_ids : Option (List String)

/-- Embeds `Throughput.__init__(edge_ids)`. -/
def Throughput.init (edge_ids : Option (List String)) : Throughput :=
  { vehicles_in_edge := [], vehicles_left_count := [], edge_ids := edge_ids }

/-- Embeds `Throughput.update(edge_id, vehicle_ids)`: if the edge was seen before,
the departed-count is `|previous set \ current set|`; otherwise the count
list is initialised empty and the departed-count is 0.  Then the current set
replaces the stored one and the count is appended.  (The `getD []` models the
in-place `list.append` on the dict entry; the entry is always present at that
point, so the Python `KeyError` path is unreachable.) -/
def Throughput.update (t : Throughput) (edge_id : String)
    (vehicle_ids : Finset String) : Throughput :=
  let branch :=
    match dictLookup edge_id t.vehicles_in_edge with
    | some prev => (t.vehicles_left_count, (prev \ vehicle_ids).card)
    | none => (dictSet t.vehicles_left_count edge_id [], 0)
  { t with
    vehicles_in_edge := dictSet t.vehicles_in_edge edge_id vehicle_ids,
    vehicles_left_count :=
      dictSet branch.1 edge_id
        ((dictLookup edge_id branch.1).getD [] ++ [branch.2]) }

/-! Section: `FundamentalDiagram` (src/visualisation.py, lines 15–50) -/

/-- State of the `FundamentalDiagram` accumulator.  The Python `data` dict
with fixed keys `'speed'`, `'flow'`, `'vehicle_count'` is flattened into
three list-valued fields. -/
structure FundamentalDiagram where
  edge_id : String
  speed : List ℚ
  flow : List Nat
  vehicle_count : List Nat
  vehicles_in_edge : Finset String
  edge_length : ℚ

/-- Embeds `FundamentalDiagram.__init__(edge_id)`. -/
def FundamentalDiagram.init (edge_id : String) : FundamentalDiagram :=
  { edge_id := edge_id, speed := [], flow := [], vehicle_count := [],
    vehicles_in_edge := ∅, edge_length := 0 }

/-- Embeds `FundamentalDiagram.update(mean_speed, vehicle_ids)`: appends the
unit-converted speed (× 3.6), the vehicle count, and the departed-count
`|previous occupancy \ current occupancy|` as flow, then replaces the
occupancy set. -/
def FundamentalDiagram.update (fd : FundamentalDiagram) (mean_speed : ℚ)
    (vehicle_ids : Finset String) : FundamentalDiagram :=
  { fd with
    speed := fd.speed ++ [mean_speed * (36 / 10)],
    vehicle_count := fd.vehicle_count ++ [vehicle_ids.card],
    flow := fd.flow ++ [(fd.vehicles_in_edge \ vehicle_ids).card],
    vehicles_in_edge := vehicle_ids }

/-- A finite sequence of `update` calls applied in order. -/
def FundamentalDiagram.applyUpdates (fd : FundamentalDiagram)
    (us : List (ℚ × Finset String)) : FundamentalDiagram :=
  us.foldl (fun fd u => fd.update u.1 u.2) fd

theorem FundamentalDiagram.applyUpdates_lengths (fd : FundamentalDiagram)
    (us : List (ℚ × Finset String)) :
    (fd.applyUpdates us).speed.length = fd.speed.length + us.length ∧
    (fd.applyUpdates us).flow.length = fd.flow.length + us.length ∧
    (fd.applyUpdates us).vehicle_count.length
      = fd.vehicle_count.length + us.length := by
  induction us generalizing fd with
  | nil => simp [applyUpdates]
  | cons u rest ih =>
      obtain ⟨h1, h2, h3⟩ := ih (fd.update u.1 u.2)
      refine ⟨?_, ?_, ?_⟩
      · simp only [applyUpdates, List.foldl_cons] at h1 ⊢
        rw [h1]
        simp only [FundamentalDiagram.update, List.length_append,
          List.length_cons, List.length_nil]
        omega
      · simp only [applyUpdates, List.foldl_cons] at h2 ⊢
        rw [h2]
        simp only [FundamentalDiagram.update, List.length_append,
          List.length_cons, List.length_nil]
        omega
      · simp only [applyUpdates, List.foldl_cons] at h3 ⊢
        rw [h3]
        simp only [FundamentalDiagram.update, List.length_append,
          List.length_cons, List.length_nil]
        omega

/-! Section: `WaitingTime` (src/metrics.py, lines 11–55) -/

/-- State of the `WaitingTime` accumulator: the ordered list of per-step
snapshots, each a dict from edge id to that step's average waiting time. -/
structure WaitingTime where
  waiting_times : List (List (String × ℚ))

/-- Embeds `WaitingTime.__init__()`. -/
def WaitingTime.init : WaitingTime := { waiting_times := [] }

/-- Embeds `WaitingTime.update(average_waiting_times)`: appends one snapshot. -/
def WaitingTime.update (w : WaitingTime)
    (average_waiting_times : List (String × ℚ)) : WaitingTime :=
  { waiting_times := w.waiting_times ++ [average_waiting_times] }

/-- The waiting-time branch of `DataCollector.step` (src/data_collector.py,
lines 207–213): one dict entry per tracked edge, holding
`waiting_time / vehicle_count` when the vehicle count is nonzero and `0`
otherwise.  The adapter queries `getWaitingTime`/`getVehicleCount` stand for
`traci.edge.getWaitingTime` and `traci.edge.getLastStepVehicleNumber`. -/
def collectAverageWaitTimes (edges : List String)
    (getWaitingTime : String → ℚ) (getVehicleCount : String → Nat) :
    List (String × ℚ) :=
  edges.foldl
    (fun m edge =>
      dictSet m edge
        (if getVehicleCount edge ≠ 0 then
          getWaitingTime edge / (getVehicleCount edge : ℚ)
        else 0))
    []

/-- The full waiting-time part of one `DataCollector.step` call: build the
snapshot and forward it to `WaitingTime.update`. -/
def stepWaitingTime (w : WaitingTime) (edges : List String)
    (getWaitingTime : String → ℚ) (getVehicleCount : String → Nat) :
    WaitingTime :=
  w.update (collectAverageWaitTimes edges getWaitingTime getVehicleCount)

theorem dictLookup_foldl_dictSet_not_mem {β : Type} (l : List String)
    (f : String → β) (e : String) (m : List (String × β)) (he : e ∉ l) :
    dictLookup e (l.foldl (fun m edge => dictSet m edge (f edge)) m)
      = dictLookup e m := by
  induction l generalizing m with
  | nil => rfl
  | cons a rest ih =>
      have hne : e ≠ a := fun h => he (h ▸ List.mem_cons_self a rest)
      have hrest : e ∉ rest := fun h => he (List.mem_cons_of_mem a h)
      rw [List.foldl_cons, ih _ hrest, dictLookup_dictSet_ne _ _ hne]

theorem dictLookup_foldl_dictSet_mem {β : Type} (l : List String)
    (f : String → β) (e : String) (m : List (String × β)) (he : e ∈ l) :
    dictLookup e (l.foldl (fun m edge => dictSet m edge (f edge)) m)
      = some (f e) := by
  induction l generalizing m with
  | nil => cases he
  | cons a rest ih =>
      rw [List.foldl_cons]
      by_cases hmem : e ∈ rest
      · exact ih _ hmem
      · have ha : a = e := by
          rcases List.mem_cons.mp he with h | h
          · exact h.symm
          · exact absurd h hmem
        subst ha
        rw [dictLookup_foldl_dictSet_not_mem _ _ _ _ hmem,
          dictLookup_dictSet_self]

/-! Section: `TimeDistance` (src/visualisation.py, lines 94–127) -/

/-- Python sequence index adjustment: a negative index counts from the end. -/
def pyIndex (i : Int) (n : Nat) : Int := if i < 0 then i + n else i

/-- Python list item assignment `l[i] = v`: the index is adjusted by
`pyIndex`; an index out of range after that adjustment raises `IndexError`,
embedded as `none`. -/
def pyListSet {α : Type} (l : List α) (i : Int) (v : α) : Option (List α) :=
  if 0 ≤ pyIndex i l.length ∧ pyIndex i l.length < (l.length : Int) then
    some (l.set (pyIndex i l.length).toNat v)
  else none

theorem pyListSet_of_nonneg {α : Type} (l : List α) (i : Int) (v : α)
    (h0 : 0 ≤ i) (h1 : i < (l.length : Int)) :
    pyListSet l i v = some (l.set i.toNat v) := by
  unfold pyListSet pyIndex
  rw [if_neg (not_lt.mpr h0)]
  rw [if_pos ⟨h0, h1⟩]

theorem pyListSet_of_neg {α : Type} (l : List α) (i : Int) (v : α)
    (h0 : i < 0) (h1 : 0 ≤ i + (l.length : Int)) :
    pyListSet l i v = some (l.set (i + (l.length : Int)).toNat v) := by
  unfold pyListSet pyIndex
  rw [if_pos h0]
  rw [if_pos ⟨h1, by omega⟩]

theorem pyListSet_eq_none {α : Type} (l : List α) (i : Int) (v : α)
    (h : i + (l.length : Int) < 0 ∨ (l.length : Int) ≤ i) :
    pyListSet l i v = none := by
  have hlen : (0 : Int) ≤ (l.length : Int) := Int.ofNat_nonneg _
  unfold pyListSet pyIndex
  by_cases hi : i < 0
  · rw [if_pos hi, if_neg (by omega)]
  · rw [if_neg hi, if_neg (by omega)]

/-- State of the `TimeDistance` accumulator: per-vehicle slot arrays
(`none` is the `np.NaN` sentinel), the route pair, and the step window. -/
structure TimeDistance where
  data : List (String × List (Option ℚ))
  route_edges : String × String
  timespan : Int × Int
  time_diff : Int
  start_time : Int

/-- Embeds `TimeDistance.__init__(route_edges, timespan)`: stores the bounds and
`time_diff = timespan[1] - timespan[0]`; no validation is performed. -/
def TimeDistance.init (route_edges : String × String)
    (timespan : Int × Int) : TimeDistance :=
  { data := [], route_edges := route_edges, timespan := timespan,
    time_diff := timespan.2 - timespan.1, start_time := timespan.1 }

/-- Lines 124–125 of `TimeDistance.update`: a vehicle seen for the first
time gets a fresh sentinel array `[np.NaN] * time_diff` (empty when
`time_diff ≤ 0`, as in Python). -/
def TimeDistance.allocData (td : TimeDistance) (vehicle_id : String) :
    List (String × List (Option ℚ)) :=
  if (dictLookup vehicle_id td.data).isSome then td.data
  else dictSet td.data vehicle_id (List.replicate td.time_diff.toNat none)

/-- Embeds `TimeDistance.update(vehicle_id, distance, time)`: after the lazy
allocation, the slot at index `time - start_time` is assigned with Python
list-index semantics (`pyListSet`).  The `getD []` is unreachable: the
vehicle's entry is present at that point. -/
def TimeDistance.update (td : TimeDistance) (vehicle_id : String)
    (distance : ℚ) (time : Int) : Option TimeDistance :=
  let time_delta := time - td.start_time
  let data1 := td.allocData vehicle_id
  match pyListSet ((dictLookup vehicle_id data1).getD []) time_delta
      (some distance) with
  | some arr => some { td with data := dictSet data1 vehicle_id arr }
  | none => none

theorem TimeDistance.lookup_allocData (td : TimeDistance) (v : String) :
    dictLookup v (td.allocData v) =
      some ((dictLookup v td.data).getD
        (List.replicate td.time_diff.toNat none)) := by
  unfold allocData
  cases h : dictLookup v td.data with
  | none => simp [h]
  | some a => simp [h]

theorem TimeDistance.update_eq_some (td : TimeDistance) (v : String)
    (d : ℚ) (s : Int) (arr0 arr : List (Option ℚ))
    (h0 : dictLookup v (td.allocData v) = some arr0)
    (hset : pyListSet arr0 (s - td.start_time) (some d) = some arr) :
    td.update v d s
      = some { td with data := dictSet (td.allocData v) v arr } := by
  unfold update
  simp only [h0, Option.getD_some, hset]

theorem TimeDistance.update_eq_none (td : TimeDistance) (v : String)
    (d : ℚ) (s : Int) (arr0 : List (Option ℚ))
    (h0 : dictLookup v (td.allocData v) = some arr0)
    (hset : pyListSet arr0 (s - td.start_time) (some d) = none) :
    td.update v d s = none := by
  unfold update
  simp only [h0, Option.getD_some, hset]

/-! Section: `DataCollector` (src/data_collector.py) -/

/-- The `'-sink'`/`'-source'` test from `DataCollector.__init__`, line 29. -/
def isBoundaryEdge (e : String) : Bool :=
  strEndsWith e "-sink" || strEndsWith e "-source"

/-- The `while` loop of `DataCollector.__init__` (lines 29–30), viewed from
the tail: `while edges[-1].endswith('-sink') or edges[-1].endswith('-source'):
edges.pop()`.  Working on the reversed list, each iteration inspects the
current last element; an inspection of an empty list is the `IndexError`
raise (`none`). -/
def popTrailingBoundaryRev : List String → Option (List String)
  | [] => none
  | e :: rest =>
      if isBoundaryEdge e then popTrailingBoundaryRev rest
      else some (e :: rest)

/-- The Tracked Edge Set computation of `DataCollector.__init__`
(lines 28–31): the adapter's edge list with trailing boundary edges popped;
`none` when the loop underflows (all edges are boundary edges, or the list
is empty). -/
def trimTrailingBoundary (edges : List String) : Option (List String) :=
  (popTrailingBoundaryRev edges.reverse).map List.reverse

/-- What C5 describes: the edge list with every trailing boundary edge
removed (total).  Stated from the claim's words, to compare with the
source-derived `trimTrailingBoundary`. -/
def dropTrailingBoundarySpec (edges : List String) : List String :=
  (edges.reverse.dropWhile isBoundaryEdge).reverse

/-- State of a `DataCollector`.  The four accumulator slots hold Python
object references, modelled as `Nat` ids: on these accumulator classes
(no `__eq__` override) the `==` used by the `remove_*` methods is identity
comparison. -/
structure DataCollector where
  id : Option Nat
  edges : List String
  waiting_time : Option Nat
  throughput : Option Nat
  fundamental_diagram : Option Nat
  time_distance_diagram : Option Nat
  step_count : Nat

/-- Embeds `DataCollector.initialised()` (line 69): `self.id != None`. -/
def DataCollector.initialised (dc : DataCollector) : Bool := dc.id.isSome

/-- Embeds `DataCollector.remove_waiting_time(waiting_time)` (lines 85–100). -/
def DataCollector.remove_waiting_time (dc : DataCollector)
    (waiting_time : Nat) : DataCollector × Bool :=
  if dc.waiting_time = some waiting_time then
    ({ dc with waiting_time := none }, true)
  else (dc, false)

/-- Embeds `DataCollector.remove_throughput(throughput)` (lines 116–131). -/
def DataCollector.remove_throughput (dc : DataCollector)
    (throughput : Nat) : DataCollector × Bool :=
  if dc.throughput = some throughput then
    ({ dc with throughput := none }, true)
  else (dc, false)

/-- Embeds `DataCollector.remove_fundamental_diagram(fundamental_diagram)`
(lines 152–167). -/
def DataCollector.remove_fundamental_diagram (dc : DataCollector)
    (fundamental_diagram : Nat) : DataCollector × Bool :=
  if dc.fundamental_diagram = some fundamental_diagram then
    ({ dc with fundamental_diagram := none }, true)
  else (dc, false)

/-- Embeds `DataCollector.remove_time_distance_diagram(time_distance_diagram)`
(lines 183–198). -/
def DataCollector.remove_time_distance_diagram (dc : DataCollector)
    (time_distance_diagram : Nat) : DataCollector × Bool :=
  if dc.time_distance_diagram = some time_distance_diagram then
    ({ dc with time_distance_diagram := none }, true)
  else (dc, false)

/-- The traci listener registry relevant to `addStepListener` /
`removeStepListener`: the set of live registration handles. -/
structure TraciState where
  listeners : List Nat

/-- Embeds `traci.removeStepListener(handle)`. -/
def removeStepListener (ts : TraciState) (handle : Nat) : TraciState :=
  { listeners := ts.listeners.erase handle }

/-- A collector together with the adapter registry it is registered with. -/
structure CollectorWorld where
  traci : TraciState
  dc : DataCollector

/-- Embeds `DataCollector.stop_collecting()` (lines 38–53): when a handle is held,
unregister it and clear the slot; otherwise do nothing. -/
def stop_collecting (w : CollectorWorld) : CollectorWorld :=
  match w.dc.id with
  | some h =>
      { traci := removeStepListener w.traci h, dc := { w.dc with id := none } }
  | none => w

/-- Embeds `DataCollector.add_fundamental_diagram` (lines 133–150), restricted to
its lane-length resolution: scan the adapter's lane list for the first lane
whose parent edge is the accumulator's edge and store its length; when no
lane matches, the accumulator is left untouched (no error). -/
def resolveFundamentalDiagramLength (fd : FundamentalDiagram)
    (lanes : List String) (getEdgeID : String → String)
    (getLength : String → ℚ) : FundamentalDiagram :=
  match lanes.find? (fun laneId => getEdgeID laneId == fd.edge_id) with
  | some laneId => { fd with edge_length := getLength laneId }
  | none => fd

/-! Section: Claim theorems -/

/-- C1: For every `Throughput` accumulator and every edge, the departed-count
recorded by `update(edge_id, vehicle_ids_now)` is `0` on the first
observation of that edge (the per-edge count list becomes `[0]`), and on
every later call the count appended is the cardinality of the previous
vehicle set minus the current one; in particular an edge observed with
vehicle sets `{A,B}`, then `{B,C}`, then `{}` records `[0, 1, 2]`. -/
theorem claim_C1_throughput_departed_count :
    (∀ (t : Throughput) (e : String) (vs : Finset String),
      dictLookup e (t.update e vs).vehicles_left_count =
        some (match dictLookup e t.vehicles_in_edge with
          | none => [0]
          | some prev =>
              (dictLookup e t.vehicles_left_count).getD []
                ++ [(prev \ vs).card])) ∧
    dictLookup "e"
      ((((Throughput.init none).update "e" {"A", "B"}).update "e"
          {"B", "C"}).update "e" ∅).vehicles_left_count = some [0, 1, 2] := by
  constructor
  · intro t e vs
    cases h : dictLookup e t.vehicles_in_edge with
    | none => simp [Throughput.update, h]
    | some prev => simp [Throughput.update, h]
  · decide

/-- C3: For every `FundamentalDiagram` accumulator and every finite sequence
of `update` calls applied to a freshly constructed accumulator, the
`speed`, `flow` and `vehicle_count` sequences have equal length after every
call — each equals the number of updates applied so far (every update
appends exactly one element to each). -/
theorem claim_C3_fundamental_diagram_parallel_lengths
    (edge_id : String) (us : List (ℚ × Finset String)) :
    ((FundamentalDiagram.init edge_id).applyUpdates us).speed.length
        = us.length ∧
    ((FundamentalDiagram.init edge_id).applyUpdates us).flow.length
        = us.length ∧
    ((FundamentalDiagram.init edge_id).applyUpdates us).vehicle_count.length
        = us.length := by
  obtain ⟨h1, h2, h3⟩ :=
    FundamentalDiagram.applyUpdates_lengths (FundamentalDiagram.init edge_id) us
  simp only [FundamentalDiagram.init, List.length_nil, Nat.zero_add] at h1 h2 h3
  exact ⟨h1, h2, h3⟩

/-- C4: For every step processed with a `WaitingTime` accumulator attached,
and every tracked edge whose vehicle count is zero at that step, the value
recorded for that edge in the step's snapshot is `0`: the division
`waiting_time / vehicle_count` is guarded by the `vehicle_count != 0` test. -/
theorem claim_C4_waiting_time_zero_vehicles (w : WaitingTime)
    (edges : List String) (getWaitingTime : String → ℚ)
    (getVehicleCount : String → Nat) (e : String)
    (he : e ∈ edges) (hzero : getVehicleCount e = 0) :
    ∃ snap,
      (stepWaitingTime w edges getWaitingTime getVehicleCount).waiting_times.getLast?
        = some snap ∧ dictLookup e snap = some 0 := by
  refine ⟨collectAverageWaitTimes edges getWaitingTime getVehicleCount, ?_, ?_⟩
  · simp [stepWaitingTime, WaitingTime.update]
  · unfold collectAverageWaitTimes
    rw [dictLookup_foldl_dictSet_mem _ _ _ _ he]
    simp [hzero]

/-- Witness for C4 at a concrete input: one edge, zero vehicles. -/
theorem claim_C4_witness :
    ∃ snap,
      (stepWaitingTime WaitingTime.init ["e1"] (fun _ => 5)
          (fun _ => 0)).waiting_times.getLast? = some snap ∧
        dictLookup "e1" snap = some 0 :=
  claim_C4_waiting_time_zero_vehicles WaitingTime.init ["e1"] (fun _ => 5)
    (fun _ => 0) "e1" (by decide) rfl

/-- C2: For every `TimeDistance` accumulator with window `[s0, e0)` and a
vehicle first observed at an in-window step `s`, immediately after
`update(v, d, s)` the vehicle's slot array has length `e0 - s0`, the slot
at index `s - s0` holds the distance, and every other slot holds the
sentinel. -/
theorem claim_C2_time_distance_first_observation (td : TimeDistance)
    (v : String) (d : ℚ) (s0 e0 s : Int)
    (hstart : td.start_time = s0) (hdiff : td.time_diff = e0 - s0)
    (hnew : dictLookup v td.data = none)
    (hlo : s0 ≤ s) (hhi : s < e0) :
    ∃ td' arr, td.update v d s = some td' ∧
      dictLookup v td'.data = some arr ∧
      arr.length = (e0 - s0).toNat ∧
      arr[(s - s0).toNat]? = some (some d) ∧
      ∀ i : Nat, i < arr.length → i ≠ (s - s0).toNat → arr[i]? = some none := by
  subst hstart
  have h0 : dictLookup v (td.allocData v)
      = some (List.replicate td.time_diff.toNat (none : Option ℚ)) := by
    rw [TimeDistance.lookup_allocData, hnew, Option.getD_none]
  have hlt : s - td.start_time
      < ((List.replicate td.time_diff.toNat (none : Option ℚ)).length : Int) := by
    rw [List.length_replicate]
    omega
  have hupd := TimeDistance.update_eq_some td v d s _ _ h0
    (pyListSet_of_nonneg _ _ _ (by omega) hlt)
  refine ⟨_, _, hupd, dictLookup_dictSet_self _ _ _, ?_, ?_, ?_⟩
  · rw [List.length_set, List.length_replicate, hdiff]
  · have hidx : (s - td.start_time).toNat
        < (List.replicate td.time_diff.toNat (none : Option ℚ)).length := by
      rw [List.length_replicate]
      omega
    rw [List.getElem?_set_eq_of_lt _ hidx]
  · intro i hiLen hiNe
    rw [List.length_set, List.length_replicate] at hiLen
    rw [List.getElem?_set_ne (Ne.symm hiNe)]
    simp [List.getElem?_replicate, hiLen]

/-- Witness for C2: fresh accumulator with window `[0, 10)`, vehicle first
seen at step 5 with distance 7. -/
theorem claim_C2_witness :
    ∃ td' arr,
      (TimeDistance.init ("o", "t") (0, 10)).update "v" 7 5 = some td' ∧
      dictLookup "v" td'.data = some arr ∧
      arr.length = ((10 : Int) - 0).toNat ∧
      arr[((5 : Int) - 0).toNat]? = some (some 7) ∧
      ∀ i : Nat, i < arr.length → i ≠ ((5 : Int) - 0).toNat →
        arr[i]? = some none :=
  claim_C2_time_distance_first_observation
    (TimeDistance.init ("o", "t") (0, 10)) "v" 7 0 10 5 rfl rfl rfl
    (by decide) (by decide)

/-- C9: For every `TimeDistance` accumulator (whose stored slot arrays all
have the window length, as every reachable state does), every vehicle, every
in-window step `s` and distances `d1` then `d2`: `update(v, d1, s)` followed
by `update(v, d2, s)` leaves the slot array with the same length as after
the first call, the slot at index `s - start` holding `d2`, and every other
slot unchanged — overwrite, not accumulation. -/
theorem claim_C9_time_distance_overwrite (td : TimeDistance)
    (v : String) (d1 d2 : ℚ) (s : Int)
    (hinv : ∀ w arr, dictLookup w td.data = some arr →
        arr.length = td.time_diff.toNat)
    (hlo : td.start_time ≤ s) (hhi : s - td.start_time < td.time_diff) :
    ∃ td1 arr1 td2 arr2,
      td.update v d1 s = some td1 ∧ dictLookup v td1.data = some arr1 ∧
      td1.update v d2 s = some td2 ∧ dictLookup v td2.data = some arr2 ∧
      arr2.length = arr1.length ∧
      arr2[(s - td.start_time).toNat]? = some (some d2) ∧
      ∀ i : Nat, i ≠ (s - td.start_time).toNat → arr2[i]? = arr1[i]? := by
  set arr0 := (dictLookup v td.data).getD
    (List.replicate td.time_diff.toNat (none : Option ℚ)) with harr0def
  have h0 : dictLookup v (td.allocData v) = some arr0 :=
    TimeDistance.lookup_allocData td v
  have harr0len : arr0.length = td.time_diff.toNat := by
    rw [harr0def]
    cases h : dictLookup v td.data with
    | none => simp
    | some a => simpa using hinv v a h
  set arr1 := arr0.set (s - td.start_time).toNat (some d1) with harr1def
  have hset1 : pyListSet arr0 (s - td.start_time) (some d1) = some arr1 :=
    pyListSet_of_nonneg _ _ _ (by omega) (by rw [harr0len]; omega)
  have hupd1 := TimeDistance.update_eq_some td v d1 s _ _ h0 hset1
  set td1 : TimeDistance :=
    { td with data := dictSet (td.allocData v) v arr1 } with htd1def
  have hlk1 : dictLookup v td1.data = some arr1 := dictLookup_dictSet_self _ _ _
  have hst1 : td1.start_time = td.start_time := rfl
  have h0' : dictLookup v (td1.allocData v) = some arr1 := by
    rw [TimeDistance.lookup_allocData, hlk1, Option.getD_some]
  have harr1len : arr1.length = td.time_diff.toNat := by
    rw [harr1def, List.length_set, harr0len]
  set arr2 := arr1.set (s - td.start_time).toNat (some d2) with harr2def
  have hset2 : pyListSet arr1 (s - td1.start_time) (some d2) = some arr2 := by
    rw [hst1]
    exact pyListSet_of_nonneg _ _ _ (by omega) (by rw [harr1len]; omega)
  have hupd2 := TimeDistance.update_eq_some td1 v d2 s _ _ h0' hset2
  refine ⟨td1, arr1, _, arr2, hupd1, hlk1, hupd2,
    dictLookup_dictSet_self _ _ _, ?_, ?_, ?_⟩
  · rw [harr2def, List.length_set]
  · rw [harr2def]
    exact List.getElem?_set_eq_of_lt _ (by rw [harr1len]; omega)
  · intro i hiNe
    rw [harr2def, List.getElem?_set_ne (Ne.symm hiNe)]

/-- Witness for C9: fresh accumulator with window `[0, 10)`, vehicle updated
twice at step 4 with distances 3 then 8. -/
theorem claim_C9_witness :
    ∃ td1 arr1 td2 arr2,
      (TimeDistance.init ("o", "t") (0, 10)).update "v" 3 4 = some td1 ∧
      dictLookup "v" td1.data = some arr1 ∧
      td1.update "v" 8 4 = some td2 ∧
      dictLookup "v" td2.data = some arr2 ∧
      arr2.length = arr1.length ∧
      arr2[((4 : Int) - 0).toNat]? = some (some 8) ∧
      ∀ i : Nat, i ≠ ((4 : Int) - 0).toNat → arr2[i]? = arr1[i]? :=
  claim_C9_time_distance_overwrite (TimeDistance.init ("o", "t") (0, 10))
    "v" 3 8 4 (by intro w arr h; simp [dictLookup] at h)
    (by decide) (by decide)

theorem popTrailingBoundaryRev_of_exists_nonboundary (l : List String)
    (h : ∃ e ∈ l, isBoundaryEdge e = false) :
    popTrailingBoundaryRev l = some (l.dropWhile isBoundaryEdge) := by
  induction l with
  | nil =>
      obtain ⟨e, he, _⟩ := h
      cases he
  | cons a rest ih =>
      by_cases ha : isBoundaryEdge a
      · have hrest : ∃ e ∈ rest, isBoundaryEdge e = false := by
          obtain ⟨e, he, hbe⟩ := h
          rcases List.mem_cons.mp he with rfl | hm
          · rw [ha] at hbe
            cases hbe
          · exact ⟨e, hm, hbe⟩
        simp [popTrailingBoundaryRev, ha, List.dropWhile_cons, ih hrest]
      · simp [popTrailingBoundaryRev, ha, List.dropWhile_cons]

/-- C5 counterexample: the claim quantifies over *every* adapter edge list,
but on a list whose edges are all boundary edges the constructor's trimming
loop raises `IndexError` (`none`) instead of producing the fully trimmed
list `[]`. -/
theorem claim_C5_counterexample :
    trimTrailingBoundary ["a-sink"] = none ∧
      dropTrailingBoundarySpec ["a-sink"] = [] := by
  constructor <;> rfl

/-- C5 (amended): for every adapter edge list that contains at least one
edge not ending in `-sink`/`-source`, the Tracked Edge Set is that list
with all trailing boundary edges removed (the non-boundary-terminated
prefix unchanged); when every edge is a boundary edge (or the list is
empty) construction raises instead. -/
theorem claim_C5_tracked_edges_trim (edges : List String)
    (h : ∃ e ∈ edges, isBoundaryEdge e = false) :
    trimTrailingBoundary edges = some (dropTrailingBoundarySpec edges) := by
  unfold trimTrailingBoundary dropTrailingBoundarySpec
  have hrev : ∃ e ∈ edges.reverse, isBoundaryEdge e = false := by
    obtain ⟨e, he, hbe⟩ := h
    exact ⟨e, List.mem_reverse.mpr he, hbe⟩
  rw [popTrailingBoundaryRev_of_exists_nonboundary _ hrev]
  rfl

/-- Witness for C5 (amended) on a concrete edge list with two trailing
boundary edges. -/
theorem claim_C5_witness :
    trimTrailingBoundary ["e1", "b-sink", "c-source"]
      = some (dropTrailingBoundarySpec ["e1", "b-sink", "c-source"]) :=
  claim_C5_tracked_edges_trim ["e1", "b-sink", "c-source"]
    ⟨"e1", by decide, by rfl⟩

/-- C6: For every collector state and every accumulator kind, `remove_*`
with a reference that is not identical to the stored one returns `false`
and leaves the slot unchanged, while the stored reference returns `true`
and clears the slot.  (All four operations are total: they never raise.) -/
theorem claim_C6_remove_reference_identity (dc : DataCollector) (a : Nat) :
    (dc.waiting_time ≠ some a → dc.remove_waiting_time a = (dc, false)) ∧
    (dc.waiting_time = some a →
      dc.remove_waiting_time a = ({ dc with waiting_time := none }, true)) ∧
    (dc.throughput ≠ some a → dc.remove_throughput a = (dc, false)) ∧
    (dc.throughput = some a →
      dc.remove_throughput a = ({ dc with throughput := none }, true)) ∧
    (dc.fundamental_diagram ≠ some a →
      dc.remove_fundamental_diagram a = (dc, false)) ∧
    (dc.fundamental_diagram = some a →
      dc.remove_fundamental_diagram a
        = ({ dc with fundamental_diagram := none }, true)) ∧
    (dc.time_distance_diagram ≠ some a →
      dc.remove_time_distance_diagram a = (dc, false)) ∧
    (dc.time_distance_diagram = some a →
      dc.remove_time_distance_diagram a
        = ({ dc with time_distance_diagram := none }, true)) := by
  refine ⟨?_, ?_, ?_, ?_, ?_, ?_, ?_, ?_⟩ <;> intro h
  · simp [DataCollector.remove_waiting_time, h]
  · simp [DataCollector.remove_waiting_time, h]
  · simp [DataCollector.remove_throughput, h]
  · simp [DataCollector.remove_throughput, h]
  · simp [DataCollector.remove_fundamental_diagram, h]
  · simp [DataCollector.remove_fundamental_diagram, h]
  · simp [DataCollector.remove_time_distance_diagram, h]
  · simp [DataCollector.remove_time_distance_diagram, h]

/-- A concrete collector state used by the C6 witness. -/
def dcSample : DataCollector :=
  { id := some 0, edges := ["e1"], waiting_time := some 1,
    throughput := some 2, fundamental_diagram := some 3,
    time_distance_diagram := some 4, step_count := 0 }

/-- Witness for C6: on `dcSample`, a mismatched reference (9) is refused for
every kind and the matching reference is removed for every kind. -/
theorem claim_C6_witness :
    (dcSample.remove_waiting_time 9 = (dcSample, false)) ∧
    (dcSample.remove_waiting_time 1
      = ({ dcSample with waiting_time := none }, true)) ∧
    (dcSample.remove_throughput 9 = (dcSample, false)) ∧
    (dcSample.remove_throughput 2
      = ({ dcSample with throughput := none }, true)) ∧
    (dcSample.remove_fundamental_diagram 9 = (dcSample, false)) ∧
    (dcSample.remove_fundamental_diagram 3
      = ({ dcSample with fundamental_diagram := none }, true)) ∧
    (dcSample.remove_time_distance_diagram 9 = (dcSample, false)) ∧
    (dcSample.remove_time_distance_diagram 4
      = ({ dcSample with time_distance_diagram := none }, true)) :=
  ⟨(claim_C6_remove_reference_identity dcSample 9).1 (by decide),
   (claim_C6_remove_reference_identity dcSample 1).2.1 rfl,
   (claim_C6_remove_reference_identity dcSample 9).2.2.1 (by decide),
   (claim_C6_remove_reference_identity dcSample 2).2.2.2.1 rfl,
   (claim_C6_remove_reference_identity dcSample 9).2.2.2.2.1 (by decide),
   (claim_C6_remove_reference_identity dcSample 3).2.2.2.2.2.1 rfl,
   (claim_C6_remove_reference_identity dcSample 9).2.2.2.2.2.2.1 (by decide),
   (claim_C6_remove_reference_identity dcSample 4).2.2.2.2.2.2.2 rfl⟩

/-- C7 counterexample: constructing a `TimeDistance` with an empty window
`(5, 5)` or an inverted window `(7, 3)` completes normally (no error is
raised; the degenerate `time_diff` is stored), and attaching a
`FundamentalDiagram` whose edge has no resolvable lane completes normally,
leaving `edge_length = 0` — so neither configuration error is surfaced at
construction/attachment time, contrary to the claim. -/
theorem claim_C7_counterexample :
    TimeDistance.init ("a", "b") (5, 5)
        = { data := [], route_edges := ("a", "b"), timespan := (5, 5),
            time_diff := 0, start_time := 5 } ∧
    TimeDistance.init ("a", "b") (7, 3)
        = { data := [], route_edges := ("a", "b"), timespan := (7, 3),
            time_diff := -4, start_time := 7 } ∧
    resolveFundamentalDiagramLength (FundamentalDiagram.init "e") []
        (fun _ => "") (fun _ => 0) = FundamentalDiagram.init "e" ∧
    (FundamentalDiagram.init "e").edge_length = 0 :=
  ⟨rfl, rfl, rfl, rfl⟩

/-- C7 (amended): constructing a `TimeDistance` with an empty or inverted
window (`e ≤ s`) is silently absorbed — construction succeeds and stores
the nonpositive window length `e - s` — and attaching a
`FundamentalDiagram` whose edge has no resolvable lane length is silently
absorbed — the accumulator is returned unchanged, its `edge_length` still
`0` from construction.  No error is surfaced at construction/attachment
time. -/
theorem claim_C7_silent_absorption (route : String × String) (s e : Int)
    (hse : e ≤ s) (fd : FundamentalDiagram) (lanes : List String)
    (getEdgeID : String → String) (getLength : String → ℚ)
    (hnolane : ∀ laneId ∈ lanes, getEdgeID laneId ≠ fd.edge_id) :
    (TimeDistance.init route (s, e)).time_diff = e - s ∧
    (TimeDistance.init route (s, e)).time_diff ≤ 0 ∧
    resolveFundamentalDiagramLength fd lanes getEdgeID getLength = fd := by
  refine ⟨rfl, by simp [TimeDistance.init]; omega, ?_⟩
  unfold resolveFundamentalDiagramLength
  have hfind : lanes.find? (fun laneId => getEdgeID laneId == fd.edge_id)
      = none := by
    rw [List.find?_eq_none]
    intro x hx
    simp only [beq_iff_eq]
    exact hnolane x hx
  rw [hfind]

/-- Witness for C7 (amended): inverted window `(5, 3)` and a lane list with
no lane on the accumulator's edge. -/
theorem claim_C7_witness :
    (TimeDistance.init ("a", "b") (5, 3)).time_diff = 3 - 5 ∧
    (TimeDistance.init ("a", "b") (5, 3)).time_diff ≤ 0 ∧
    resolveFundamentalDiagramLength (FundamentalDiagram.init "e") ["l1"]
      (fun _ => "other") (fun _ => 7) = FundamentalDiagram.init "e" :=
  claim_C7_silent_absorption ("a", "b") 5 3 (by decide)
    (FundamentalDiagram.init "e") ["l1"] (fun _ => "other") (fun _ => 7)
    (by
      intro laneId hmem
      show ("other" : String) ≠ "e"
      decide)

/-- C8: `stop_collecting` clears the registration handle (so
`initialised()` reports `false`) and is idempotent: a second call is a
no-op that performs no further unregistration and leaves the whole state —
handle, edge set, accumulator slots, and adapter registry — unchanged. -/
theorem claim_C8_stop_collecting_idempotent (w : CollectorWorld) :
    (stop_collecting w).dc.id = none ∧
    (stop_collecting w).dc.initialised = false ∧
    stop_collecting (stop_collecting w) = stop_collecting w := by
  cases h : w.dc.id with
  | none => simp [stop_collecting, h, DataCollector.initialised]
  | some handle => simp [stop_collecting, h, DataCollector.initialised]

/-- C10: For every `TimeDistance` accumulator with window `[s0, s0 + L)`
(stored slot arrays all of length `L`, as in every reachable state), a call
`update(v, d, s)` with `s0 - L ≤ s < s0` does not raise: Python's negative
indexing silently writes the distance at slot index `L + (s - s0)`, counted
from the end of the array; only for `s < s0 - L` or `s ≥ s0 + L` does the
call fail with an `IndexError`. -/
theorem claim_C10_time_distance_negative_index (td : TimeDistance)
    (v : String) (d : ℚ) (s0 L : Int)
    (hstart : td.start_time = s0) (hdiff : td.time_diff = L)
    (hinv : ∀ w arr, dictLookup w td.data = some arr →
        arr.length = td.time_diff.toNat) :
    (∀ s, s0 - L ≤ s → s < s0 →
      ∃ td' arr, td.update v d s = some td' ∧
        dictLookup v td'.data = some arr ∧
        arr.length = L.toNat ∧
        arr[(L + (s - s0)).toNat]? = some (some d)) ∧
    (∀ s, s0 ≤ s → s < s0 + L → ∃ td', td.update v d s = some td') ∧
    (∀ s, s < s0 - L → td.update v d s = none) ∧
    (∀ s, s0 + L ≤ s → td.update v d s = none) := by
  subst hstart
  have h0 := TimeDistance.lookup_allocData td v
  have harr0len : ((dictLookup v td.data).getD
      (List.replicate td.time_diff.toNat (none : Option ℚ))).length
        = td.time_diff.toNat := by
    cases h : dictLookup v td.data with
    | none => simp
    | some a => simpa [h] using hinv v a h
  refine ⟨?_, ?_, ?_, ?_⟩
  · intro s hs1 hs2
    have hneg : s - td.start_time < 0 := by omega
    have hwrap : 0 ≤ (s - td.start_time) + (((dictLookup v td.data).getD
        (List.replicate td.time_diff.toNat (none : Option ℚ))).length : Int) := by
      rw [harr0len]
      omega
    have hset := pyListSet_of_neg _ _ (some d) hneg hwrap
    have hupd := TimeDistance.update_eq_some td v d s _ _ h0 hset
    refine ⟨_, _, hupd, dictLookup_dictSet_self _ _ _, ?_, ?_⟩
    · rw [List.length_set, harr0len]
      omega
    · have hidxeq : ((s - td.start_time) + (((dictLookup v td.data).getD
          (List.replicate td.time_diff.toNat (none : Option ℚ))).length : Int)).toNat
            = (L + (s - td.start_time)).toNat := by
        rw [harr0len]
        omega
      rw [hidxeq]
      exact List.getElem?_set_eq_of_lt _ (by rw [harr0len]; omega)
  · intro s hs1 hs2
    have hlt : s - td.start_time < (((dictLookup v td.data).getD
        (List.replicate td.time_diff.toNat (none : Option ℚ))).length : Int) := by
      rw [harr0len]
      omega
    exact ⟨_, TimeDistance.update_eq_some td v d s _ _ h0
      (pyListSet_of_nonneg _ _ _ (by omega) hlt)⟩
  · intro s hs
    refine TimeDistance.update_eq_none td v d s _ h0 (pyListSet_eq_none _ _ _ ?_)
    rw [harr0len]
    omega
  · intro s hs
    refine TimeDistance.update_eq_none td v d s _ h0 (pyListSet_eq_none _ _ _ ?_)
    rw [harr0len]
    omega

/-- Witness for C10: fresh accumulator with window `[0, 10)`; step `-3`
silently writes at index 7, steps `-11` and `10` raise. -/
theorem claim_C10_witness :
    (∃ td' arr,
      (TimeDistance.init ("a", "b") (0, 10)).update "v" 7 (-3) = some td' ∧
      dictLookup "v" td'.data = some arr ∧
      arr.length = (10 : Int).toNat ∧
      arr[((10 : Int) + ((-3) - 0)).toNat]? = some (some 7)) ∧
    (∃ td', (TimeDistance.init ("a", "b") (0, 10)).update "v" 7 5
      = some td') ∧
    (TimeDistance.init ("a", "b") (0, 10)).update "v" 7 (-11) = none ∧
    (TimeDistance.init ("a", "b") (0, 10)).update "v" 7 10 = none := by
  obtain ⟨ha, hw, hb, hc⟩ := claim_C10_time_distance_negative_index
    (TimeDistance.init ("a", "b") (0, 10)) "v" 7 0 10 rfl rfl
    (by
      intro w arr h
      simp [dictLookup] at h)
  exact ⟨ha (-3) (by decide) (by decide), hw 5 (by decide) (by decide),
    hb (-11) (by decide), hc 10 (by decide)⟩

end Sumo
